import Mathlib

/-!
Verification of the EMERIX frontend (React single-page application for
hospital ER wait-time display) against its natural-language specification.

The definitions below are shallow embeddings of the JavaScript source files
under `src/src/`:
  - `PredictionCards.js` (card list, wait-time labels, street-cam note)
  - `PulseBackground.js` (decorative background grid, and the `HospitalMap`
    component that shares the file: marker colors and classes)
  - `RealTimeUpdates.js` (update-history ring buffer, trend direction)
  - `App.js` (session state and the `setLocation` / `handleLocationSet`
    handlers)
JavaScript numbers holding wait times are modelled as `Int` (the spec fixes
them as integer minutes); JSON objects become structures with `Option`
fields where the source treats a field as possibly absent; the JavaScript
`x || d` default idiom on numbers is modelled explicitly (absent or zero
falls through to the default). The backend (Flask, not part of the sources)
is modelled from the spec only where a claim requires it, and is marked so.
-/

namespace PredictionCards

/-- Embeds `getWaitTimeClass` of `PredictionCards.js`:
`if (waitTime < 30) return 'low'; if (waitTime < 60) return 'medium'; return 'high';` -/
def getWaitTimeClass (waitTime : Int) : String :=
  if waitTime < 30 then "low"
  else if waitTime < 60 then "medium"
  else "high"

/-- Embeds `getWaitTimeLabel` of `PredictionCards.js`:
`if (waitTime < 30) return 'Low wait'; if (waitTime < 60) return 'Medium wait'; return 'High wait';` -/
def getWaitTimeLabel (waitTime : Int) : String :=
  if waitTime < 30 then "Low wait"
  else if waitTime < 60 then "Medium wait"
  else "High wait"

end PredictionCards

namespace HospitalMap

/-- Embeds `getWaitTimeColor` of the `HospitalMap` component:
`if (waitTime < 30) return '#10b981'; if (waitTime < 60) return '#f59e0b'; return '#dc2626';` -/
def getWaitTimeColor (waitTime : Int) : String :=
  if waitTime < 30 then "#10b981"
  else if waitTime < 60 then "#f59e0b"
  else "#dc2626"

/-- Embeds `getWaitTimeClass` of the `HospitalMap` component:
`if (waitTime < 30) return 'low'; if (waitTime < 60) return 'medium'; return 'high';` -/
def getWaitTimeClass (waitTime : Int) : String :=
  if waitTime < 30 then "low"
  else if waitTime < 60 then "medium"
  else "high"

end HospitalMap

/-- C1 counterexample: at wait time 60 the frontend bucketing functions
return the high bucket (red `#dc2626`), not the medium bucket (amber
`#f59e0b`), contradicting the claim that `30 <= w <= 60` is medium. -/
theorem c1_wait_sixty_is_high_not_medium :
    PredictionCards.getWaitTimeClass 60 = "high" ∧
    PredictionCards.getWaitTimeClass 60 ≠ "medium" ∧
    HospitalMap.getWaitTimeColor 60 = "#dc2626" ∧
    HospitalMap.getWaitTimeColor 60 ≠ "#f59e0b" := by
  refine ⟨rfl, ?_, rfl, ?_⟩ <;> decide

/-- C1 (amended): for every wait-time value `w`, the frontend's wait-time
bucketing assigns `w` to the medium bucket (amber color, `medium` class)
exactly when `30 <= w < 60`, and to the high bucket (red color, `high`
class) exactly when `w >= 60`; in particular `w = 60` is bucketed high. -/
theorem c1_bucket_boundaries (w : Int) :
    (30 ≤ w → w < 60 →
      HospitalMap.getWaitTimeColor w = "#f59e0b" ∧
      PredictionCards.getWaitTimeClass w = "medium") ∧
    (60 ≤ w →
      HospitalMap.getWaitTimeColor w = "#dc2626" ∧
      PredictionCards.getWaitTimeClass w = "high") := by
  unfold HospitalMap.getWaitTimeColor PredictionCards.getWaitTimeClass
  constructor
  · intro h1 h2
    rw [if_neg (by omega), if_pos h2, if_neg (by omega), if_pos h2]
    exact ⟨rfl, rfl⟩
  · intro h
    rw [if_neg (by omega), if_neg (by omega), if_neg (by omega), if_neg (by omega)]
    exact ⟨rfl, rfl⟩

/-- C1 witness: the amended bucket boundaries evaluated at the concrete
wait times 45 (medium) and 60 (high). -/
theorem c1_bucket_boundaries_witness :
    (HospitalMap.getWaitTimeColor 45 = "#f59e0b" ∧
      PredictionCards.getWaitTimeClass 45 = "medium") ∧
    (HospitalMap.getWaitTimeColor 60 = "#dc2626" ∧
      PredictionCards.getWaitTimeClass 60 = "high") :=
  ⟨(c1_bucket_boundaries 45).1 (by decide) (by decide),
   (c1_bucket_boundaries 60).2 (by decide)⟩

/-- C2: for every wait-time value `w`, the card-label function maps
`w < 30` to the low bucket, `30 <= w < 60` to the medium bucket and
`w >= 60` to the high bucket, the map-class function applies the same
thresholds, and the two agree on the bucket for every `w`. -/
theorem c2_label_and_marker_agree (w : Int) :
    (w < 30 →
      PredictionCards.getWaitTimeLabel w = "Low wait" ∧
      HospitalMap.getWaitTimeClass w = "low") ∧
    (30 ≤ w → w < 60 →
      PredictionCards.getWaitTimeLabel w = "Medium wait" ∧
      HospitalMap.getWaitTimeClass w = "medium") ∧
    (60 ≤ w →
      PredictionCards.getWaitTimeLabel w = "High wait" ∧
      HospitalMap.getWaitTimeClass w = "high") ∧
    PredictionCards.getWaitTimeClass w = HospitalMap.getWaitTimeClass w := by
  unfold PredictionCards.getWaitTimeLabel PredictionCards.getWaitTimeClass
    HospitalMap.getWaitTimeClass
  refine ⟨?_, ?_, ?_, ?_⟩
  · intro h
    rw [if_pos h, if_pos h]
    exact ⟨rfl, rfl⟩
  · intro h1 h2
    rw [if_neg (by omega), if_pos h2, if_neg (by omega), if_pos h2]
    exact ⟨rfl, rfl⟩
  · intro h
    rw [if_neg (by omega), if_neg (by omega), if_neg (by omega), if_neg (by omega)]
    exact ⟨rfl, rfl⟩
  · split_ifs <;> rfl

/-- C2 witness: the three bucket ranges and the agreement of the two
functions evaluated at the concrete wait times 10, 45 and 75. -/
theorem c2_label_and_marker_agree_witness :
    (PredictionCards.getWaitTimeLabel 10 = "Low wait" ∧
      HospitalMap.getWaitTimeClass 10 = "low") ∧
    (PredictionCards.getWaitTimeLabel 45 = "Medium wait" ∧
      HospitalMap.getWaitTimeClass 45 = "medium") ∧
    (PredictionCards.getWaitTimeLabel 75 = "High wait" ∧
      HospitalMap.getWaitTimeClass 75 = "high") :=
  ⟨(c2_label_and_marker_agree 10).1 (by decide),
   (c2_label_and_marker_agree 45).2.1 (by decide) (by decide),
   (c2_label_and_marker_agree 75).2.2.1 (by decide)⟩

namespace App

/-- A prediction record as the frontend consumes it from the API: every
field the components dereference is optional, matching JSON access on a
plain object (`prediction.current_wait_time`, `.confidence`, `.factors`,
`.recommendation`, `.prediction_method`). -/
structure Prediction where
  current_wait_time : Option Int
  confidence : Option Int
  factors : List String
  recommendation : Option String
  prediction_method : Option String
deriving DecidableEq, Repr

/-- A hospital record as the frontend consumes it (`hospital.id`, `.name`,
`.address`, `.coordinates`, `.rating`, `.distance_miles`). -/
structure Hospital where
  id : String
  name : String
  address : Option String
  coordinates : Int × Int
  rating : Option Int
  distance_miles : Option Int
deriving DecidableEq, Repr

/-- The resolved user location (`data.user_location`). -/
structure UserLocation where
  latitude : Int
  longitude : Int
  address : Option String
deriving DecidableEq, Repr

/-- The predictions map keyed by hospital id (`predictions[hospital.id]`),
modelled as an association list. -/
abbrev PredictionsMap := List (String × Prediction)

/-- The React state of the `App` component: the `useState` hooks
`hospitals`, `predictions`, `loading`, `error`, `userLocation`,
`locationSet` of `App.js`. -/
structure AppState where
  hospitals : List Hospital
  predictions : PredictionsMap
  loading : Bool
  error : Option String
  userLocation : Option UserLocation
  locationSet : Bool
deriving DecidableEq, Repr

/-- The parsed body of a `POST /api/location` response as `setLocation`
reads it: `data.status`, `data.user_location`, `data.hospitals`,
`data.predictions` (possibly absent), `data.error` (possibly absent). -/
structure LocationResponse where
  status : String
  user_location : Option UserLocation
  hospitals : List Hospital
  predictions : Option PredictionsMap
  error : Option String
deriving DecidableEq, Repr

/-- Embeds the success branch shared by `setLocation` and
`handleLocationSet` in `App.js` as the sequence of states the UI can
render. The synchronous state updates of the handler
(`setUserLocation`, `setHospitals`, `setLocationSet(true)`,
`setLoading(false)`, and `setPredictions` when `data.predictions` is
present) coalesce into one rendered state. When `data.predictions` is
absent the handler instead calls the asynchronous `loadPredictions`, so
the state with the new hospitals and the untouched previous predictions
is rendered first, and the state holding the fetched predictions
(`fetched`) only after that request completes. -/
def applyLocationSuccess (s : AppState) (data : LocationResponse)
    (fetched : PredictionsMap) : List AppState :=
  let s1 : AppState :=
    { s with
      userLocation := data.user_location
      hospitals := data.hospitals
      locationSet := true
      loading := false }
  match data.predictions with
  | some ps => [{ s1 with predictions := ps }]
  | none => [s1, { s1 with predictions := fetched }]

/-- Embeds `setLocation` of `App.js` as a state-sequence function. The
argument `result` is `none` when the fetch or JSON parse throws (the
`catch` branch sets the error message), and `some data` otherwise; on a
non-success status only the error message is set. -/
def setLocation (s : AppState) (result : Option LocationResponse)
    (fetched : PredictionsMap) : List AppState :=
  match result with
  | none => [{ s with error := some "Failed to set location" }]
  | some data =>
    if data.status = "success" then
      applyLocationSuccess s data fetched
    else
      [{ s with error := some (data.error.getD "Failed to set location") }]

/-- A hospital id `hid` from the prior location is observable in a rendered
state `t` when the new hospital list is shown while `t.predictions` still
holds an entry keyed by `hid`. -/
def staleKeyObservable (hid : String) (t : AppState) : Prop :=
  (t.predictions.lookup hid).isSome

instance (hid : String) (t : AppState) : Decidable (staleKeyObservable hid t) := by
  unfold staleKeyObservable; infer_instance

/-- Definitional equation of `setLocation` on a parsed response. -/
theorem setLocation_some (s : AppState) (data : LocationResponse)
    (fetched : PredictionsMap) :
    setLocation s (some data) fetched =
      if data.status = "success" then
        applyLocationSuccess s data fetched
      else
        [{ s with error := some (data.error.getD "Failed to set location") }] :=
  rfl

end App

/-- C3 counterexample: a session holding a prediction keyed by hospital id
`h1` relocates successfully; the response carries the new hospital `h2`
but no inline predictions map, so the second rendered state already shows
the new hospital list while the predictions map still holds the prior
location's key `h1` — the two are not replaced together. -/
theorem c3_stale_prediction_observable :
    let oldPred : App.Prediction :=
      ⟨some 40, some 80, [], some "Wait", some "ai"⟩
    let oldHosp : App.Hospital :=
      ⟨"h1", "Old General", none, (1, 1), none, some 2⟩
    let newHosp : App.Hospital :=
      ⟨"h2", "New Mercy", none, (5, 5), none, some 1⟩
    let s0 : App.AppState :=
      ⟨[oldHosp], [("h1", oldPred)], false, none, none, true⟩
    let resp : App.LocationResponse :=
      ⟨"success", none, [newHosp], none, none⟩
    let rendered := App.setLocation s0 (some resp) []
    ∃ t ∈ rendered, t.hospitals = [newHosp] ∧ App.staleKeyObservable "h1" t := by
  intro oldPred oldHosp newHosp s0 resp rendered
  refine ⟨rendered.head (by decide), ?_, ?_, ?_⟩ <;> decide

/-- C3 (amended): after a successful relocation whose response carries an
inline predictions map, the hospitals list and the predictions map are
replaced together in the single rendered state: no prediction keyed by a
hospital id outside the response's own predictions map is observable. When
the response lacks the inline map, the first rendered state keeps the
previous predictions alongside the new hospitals until the follow-up
predictions fetch completes. -/
theorem c3_atomic_replace_with_inline_predictions
    (s : App.AppState) (data : App.LocationResponse)
    (fetched ps : App.PredictionsMap)
    (hps : data.predictions = some ps) :
    App.setLocation s (some data) fetched =
      [{ s with
          userLocation := data.user_location
          hospitals := data.hospitals
          predictions := ps
          locationSet := true
          loading := false }] ∨ data.status ≠ "success" := by
  by_cases hst : data.status = "success"
  · left
    rw [App.setLocation_some, if_pos hst]
    unfold App.applyLocationSuccess
    rw [hps]
  · right; exact hst

/-- C3 witness: the atomic replacement evaluated on a concrete success
response carrying an inline predictions map. -/
theorem c3_atomic_replace_with_inline_predictions_witness :
    let newHosp : App.Hospital :=
      ⟨"h2", "New Mercy", none, (5, 5), none, some 1⟩
    let newPred : App.Prediction :=
      ⟨some 20, some 90, [], some "Go Now", some "ai"⟩
    let s0 : App.AppState :=
      ⟨[], [("h1", ⟨some 40, none, [], none, none⟩)], false, none, none, true⟩
    let resp : App.LocationResponse :=
      ⟨"success", none, [newHosp], some [("h2", newPred)], none⟩
    App.setLocation s0 (some resp) [] =
      [{ s0 with
          userLocation := none
          hospitals := [newHosp]
          predictions := [("h2", newPred)]
          locationSet := true
          loading := false }] ∨ resp.status ≠ "success" := by
  intro newHosp newPred s0 resp
  exact c3_atomic_replace_with_inline_predictions s0 resp [] [("h2", newPred)] rfl

/-- C5: when the `POST /api/location` response parses with a status other
than `success`, `setLocation` renders exactly one state: the error message
from the response (or the default message) is surfaced, and the hospitals
list, predictions map, user location and `locationSet` flag all keep their
previous values. -/
theorem c5_error_leaves_session_unchanged
    (s : App.AppState) (data : App.LocationResponse)
    (fetched : App.PredictionsMap)
    (hst : data.status ≠ "success") :
    App.setLocation s (some data) fetched =
      [{ s with error := some (data.error.getD "Failed to set location") }] ∧
    ∀ t ∈ App.setLocation s (some data) fetched,
      t.hospitals = s.hospitals ∧ t.predictions = s.predictions ∧
      t.userLocation = s.userLocation ∧ t.locationSet = s.locationSet ∧
      t.error = some (data.error.getD "Failed to set location") := by
  rw [App.setLocation_some, if_neg hst]
  refine ⟨rfl, ?_⟩
  intro t ht
  rw [List.mem_singleton] at ht
  subst ht
  exact ⟨rfl, rfl, rfl, rfl, rfl⟩

/-- C5 witness: a concrete `LocationNotFound`-style error response leaves a
concrete loaded session untouched apart from the surfaced error. -/
theorem c5_error_leaves_session_unchanged_witness :
    let hosp : App.Hospital := ⟨"h1", "Old General", none, (1, 1), none, some 2⟩
    let s0 : App.AppState :=
      ⟨[hosp], [("h1", ⟨some 40, some 80, [], some "Wait", some "ai"⟩)],
        false, none, some ⟨7, 8, none⟩, true⟩
    let resp : App.LocationResponse :=
      ⟨"error", none, [], none, some "Location not found"⟩
    App.setLocation s0 (some resp) [] =
      [{ s0 with error := some "Location not found" }] := by
  intro hosp s0 resp
  exact (c5_error_leaves_session_unchanged s0 resp [] (by decide)).1

namespace StreetCam

/-- The analysis object of the street-cam response
(`insight.analysis.traffic_level`, `.estimated_cars`, `.confidence`). -/
structure CamAnalysis where
  traffic_level : String
  estimated_cars : Int
  confidence : Int
deriving DecidableEq, Repr

/-- The insight object of the street-cam response. -/
structure CamInsight where
  analysis : CamAnalysis
deriving DecidableEq, Repr

/-- The parsed body of a `GET /api/street-cam-insight` response. -/
structure CamResponse where
  status : String
  insight : CamInsight
deriving DecidableEq, Repr

/-- The note text built by `pingStreetCam` in `PredictionCards.js`:
the template string over `traffic_level`, `estimated_cars`, `confidence`. -/
def camNoteText (a : CamAnalysis) : String :=
  "street cam vibe: " ++ a.traffic_level ++ " • ~" ++ toString a.estimated_cars
    ++ " cars • conf " ++ toString a.confidence ++ "%"

/-- Embeds `pingStreetCam` of `PredictionCards.js` as its effect on the
`camNote` state: `result` is `none` when the fetch or JSON parse throws
(the `catch` body is empty, so the note is left unchanged and nothing else
is touched); on a parsed body, `setCamNote` runs only when
`data.status === 'ok'`. -/
def pingStreetCam (result : Option CamResponse) (camNote : Option String) :
    Option String :=
  match result with
  | some data =>
    if data.status = "ok" then some (camNoteText data.insight.analysis)
    else camNote
  | none => camNote

/-- Definitional equation of `pingStreetCam` on a parsed response. -/
theorem pingStreetCam_some (data : CamResponse) (camNote : Option String) :
    pingStreetCam (some data) camNote =
      if data.status = "ok" then some (camNoteText data.insight.analysis)
      else camNote :=
  rfl

end StreetCam

/-- C6: the street-cam note is updated exactly when the fetch succeeds with
a body whose status is `ok`, in which case the note is built from the
fields `insight.analysis.traffic_level`, `.estimated_cars` and
`.confidence`; on a fetch/parse error or a non-`ok` status the note is left
unchanged (and the empty catch surfaces no error). -/
theorem c6_cam_note_update (r : StreetCam.CamResponse) (note : Option String) :
    StreetCam.pingStreetCam none note = note ∧
    (r.status = "ok" →
      StreetCam.pingStreetCam (some r) note =
        some (StreetCam.camNoteText r.insight.analysis)) ∧
    (r.status ≠ "ok" → StreetCam.pingStreetCam (some r) note = note) := by
  refine ⟨rfl, ?_, ?_⟩
  · intro h
    rw [StreetCam.pingStreetCam_some, if_pos h]
  · intro h
    rw [StreetCam.pingStreetCam_some, if_neg h]

/-- C6 witness: a concrete `ok` response produces the note text verbatim,
and a concrete error response leaves a concrete note unchanged. -/
theorem c6_cam_note_update_witness :
    (StreetCam.pingStreetCam
        (some ⟨"ok", ⟨⟨"busy", 12, 85⟩⟩⟩) none =
      some "street cam vibe: busy • ~12 cars • conf 85%") ∧
    (StreetCam.pingStreetCam (some ⟨"error", ⟨⟨"", 0, 0⟩⟩⟩)
        (some "old note") = some "old note") :=
  ⟨((c6_cam_note_update ⟨"ok", ⟨⟨"busy", 12, 85⟩⟩⟩ none).2.1 rfl).trans (by decide),
   (c6_cam_note_update ⟨"error", ⟨⟨"", 0, 0⟩⟩⟩ (some "old note")).2.2 (by decide)⟩

namespace RealTimeUpdates

/-- An entry of the client-side update history of `RealTimeUpdates.js`: a
snapshot of the predictions map (the timestamp and type fields play no role
in the verified properties and are omitted). -/
structure UpdateEntry where
  predictions : App.PredictionsMap
deriving DecidableEq, Repr

/-- Embeds the history-recording effect in `RealTimeUpdates.js`:
`if (Object.keys(predictions).length > 0) setUpdateHistory(prev => [newUpdate, ...prev.slice(0, 9)])`. -/
def recordUpdate (predictions : App.PredictionsMap) (prev : List UpdateEntry) :
    List UpdateEntry :=
  if predictions.length > 0 then ⟨predictions⟩ :: prev.take 9 else prev

/-- The per-prediction wait value used in the averages:
`p.current_wait_time || 0` (absent falls through to 0). -/
def waitOrZero (p : App.Prediction) : Int :=
  p.current_wait_time.getD 0

/-- The sum of the wait values of a predictions map. -/
def sumWaits (preds : App.PredictionsMap) : Int :=
  (preds.map (fun kv => waitOrZero kv.2)).sum

/-- Embeds `getAverageWaitTime` of `RealTimeUpdates.js`:
`Math.round(waitTimes.reduce((a,b) => a+b, 0) / waitTimes.length)` when the
map is non-empty, 0 otherwise (`Math.round` is round-half-up, as `round`). -/
def getAverageWaitTime (preds : App.PredictionsMap) : Int :=
  if preds.length > 0 then
    round ((sumWaits preds : ℚ) / (preds.length : ℚ))
  else 0

/-- The `previous` average inside `getTrendDirection`: the unrounded mean
over the predictions of the history entry at index 1, or 0 when that entry
is absent. -/
def trendPrevious (history : List UpdateEntry) : ℚ :=
  match history[1]? with
  | some e => (sumWaits e.predictions : ℚ) / (e.predictions.length : ℚ)
  | none => 0

/-- Embeds `getTrendDirection` of `RealTimeUpdates.js`. -/
def getTrendDirection (preds : App.PredictionsMap)
    (history : List UpdateEntry) : String :=
  if history.length < 2 then "stable"
  else if ((getAverageWaitTime preds : Int) : ℚ) > trendPrevious history + 5 then
    "increasing"
  else if ((getAverageWaitTime preds : Int) : ℚ) < trendPrevious history - 5 then
    "decreasing"
  else "stable"

end RealTimeUpdates

/-- C7: the update history is a bounded ring, newest first: when the
predictions map is non-empty, the new entry is prepended to the first nine
previous entries and the result has at most 10 entries; when the map is
empty nothing is recorded; the bound 10 is preserved across every change. -/
theorem c7_history_bounded_ring (p : App.PredictionsMap)
    (h : List RealTimeUpdates.UpdateEntry) :
    (p ≠ [] →
      RealTimeUpdates.recordUpdate p h = ⟨p⟩ :: h.take 9 ∧
      (RealTimeUpdates.recordUpdate p h).length ≤ 10) ∧
    (p = [] → RealTimeUpdates.recordUpdate p h = h) ∧
    (h.length ≤ 10 → (RealTimeUpdates.recordUpdate p h).length ≤ 10) := by
  unfold RealTimeUpdates.recordUpdate
  refine ⟨?_, ?_, ?_⟩
  · intro hp
    rw [if_pos (by simpa [List.length_pos] using hp)]
    refine ⟨rfl, ?_⟩
    have := List.length_take_le 9 h
    simp only [List.length_cons]
    omega
  · intro hp
    subst hp
    rw [if_neg (by simp)]
  · intro hlen
    split_ifs
    · have := List.length_take_le 9 h
      simp only [List.length_cons]
      omega
    · exact hlen

/-- C7 witness: recording a concrete non-empty map onto a concrete history
prepends it, and a concrete empty map records nothing. -/
theorem c7_history_bounded_ring_witness :
    (RealTimeUpdates.recordUpdate [("h1", ⟨some 40, none, [], none, none⟩)]
        [⟨[("h1", ⟨some 20, none, [], none, none⟩)]⟩] =
      ⟨[("h1", ⟨some 40, none, [], none, none⟩)]⟩ ::
        [⟨[("h1", ⟨some 20, none, [], none, none⟩)]⟩] ∧
      (RealTimeUpdates.recordUpdate [("h1", ⟨some 40, none, [], none, none⟩)]
        [⟨[("h1", ⟨some 20, none, [], none, none⟩)]⟩]).length ≤ 10) ∧
    RealTimeUpdates.recordUpdate ([] : App.PredictionsMap)
        [⟨[("h1", ⟨some 20, none, [], none, none⟩)]⟩] =
      [⟨[("h1", ⟨some 20, none, [], none, none⟩)]⟩] := by
  constructor
  · have := (c7_history_bounded_ring
      [("h1", ⟨some 40, none, [], none, none⟩)]
      [⟨[("h1", ⟨some 20, none, [], none, none⟩)]⟩]).1 (by decide)
    simpa using this
  · exact (c7_history_bounded_ring ([] : App.PredictionsMap)
      [⟨[("h1", ⟨some 20, none, [], none, none⟩)]⟩]).2.1 rfl

/-- C9: `getTrendDirection` is total and safe: it always returns one of
`increasing`, `decreasing`, `stable`; it returns `stable` whenever the
history has fewer than 2 entries; under the invariant that every history
entry holds a non-empty predictions map, the entry at index 1 exists with a
non-zero divisor whenever the history has at least 2 entries; and
`recordUpdate` preserves that invariant, since it records an entry only
when the predictions map is non-empty. -/
theorem c9_trend_total_and_safe (preds : App.PredictionsMap)
    (history : List RealTimeUpdates.UpdateEntry) :
    (RealTimeUpdates.getTrendDirection preds history = "increasing" ∨
     RealTimeUpdates.getTrendDirection preds history = "decreasing" ∨
     RealTimeUpdates.getTrendDirection preds history = "stable") ∧
    (history.length < 2 →
      RealTimeUpdates.getTrendDirection preds history = "stable") ∧
    ((∀ e ∈ history, e.predictions ≠ []) → 2 ≤ history.length →
      ∃ e, history[1]? = some e ∧ e.predictions.length ≠ 0) ∧
    (∀ (p : App.PredictionsMap) (h : List RealTimeUpdates.UpdateEntry),
      (∀ e ∈ h, e.predictions ≠ []) →
      ∀ e ∈ RealTimeUpdates.recordUpdate p h, e.predictions ≠ []) := by
  refine ⟨?_, ?_, ?_, ?_⟩
  · unfold RealTimeUpdates.getTrendDirection
    split_ifs <;> simp
  · intro hlen
    unfold RealTimeUpdates.getTrendDirection
    rw [if_pos hlen]
  · intro hinv hlen
    have h1 : 1 < history.length := by omega
    refine ⟨history.get ⟨1, h1⟩, ?_, ?_⟩
    · rw [List.getElem?_eq_getElem h1, List.get_eq_getElem]
    · intro hc
      exact hinv _ (history.get_mem 1 h1) (List.length_eq_zero.mp hc)
  · intro p h hinv e he
    unfold RealTimeUpdates.recordUpdate at he
    split_ifs at he with hp
    · rcases List.mem_cons.mp he with rfl | hmem
      · intro hc
        have hpe : p = [] := hc
        simp [hpe] at hp
      · exact hinv e (List.take_subset 9 h hmem)
    · exact hinv e he

/-- C9 witness: the trend is `stable` on an empty history; on a concrete
two-entry history of non-empty maps the divisor entry exists and is
non-zero; and recording a concrete non-empty map onto the empty history
yields only non-empty entries. -/
theorem c9_trend_total_and_safe_witness :
    RealTimeUpdates.getTrendDirection [] [] = "stable" ∧
    (∃ e, ([⟨[("h1", ⟨some 40, none, [], none, none⟩)]⟩,
            ⟨[("h1", ⟨some 20, none, [], none, none⟩)]⟩] :
        List RealTimeUpdates.UpdateEntry)[1]? = some e ∧
      e.predictions.length ≠ 0) ∧
    (∀ e ∈ RealTimeUpdates.recordUpdate
        [("h1", ⟨some 40, none, [], none, none⟩)] [],
      e.predictions ≠ []) :=
  ⟨(c9_trend_total_and_safe [] []).2.1 (by decide),
   (c9_trend_total_and_safe []
      [⟨[("h1", ⟨some 40, none, [], none, none⟩)]⟩,
       ⟨[("h1", ⟨some 20, none, [], none, none⟩)]⟩]).2.2.1
      (by decide) (by decide),
   (c9_trend_total_and_safe [] []).2.2.2
      [("h1", ⟨some 40, none, [], none, none⟩)] [] (by decide)⟩

/-- Models the JavaScript idiom `x || d` on an optional numeric field: an
absent value or the number 0 falls through to the default `d`. -/
def jsOr (x : Option Int) (d : Int) : Int :=
  match x with
  | none => d
  | some w => if w = 0 then d else w

namespace PredictionCards

/-- Embeds the displayed wait of the card list in `PredictionCards.js`:
`const currentWait = prediction?.current_wait_time || 30;`. -/
def displayedWait (prediction : Option App.Prediction) : Int :=
  jsOr (prediction.bind App.Prediction.current_wait_time) 30

end PredictionCards

namespace HospitalMap

/-- Embeds the displayed wait of the map markers in the `HospitalMap`
component: `const waitTime = prediction?.current_wait_time || 30;`. -/
def displayedWait (prediction : Option App.Prediction) : Int :=
  jsOr (prediction.bind App.Prediction.current_wait_time) 30

end HospitalMap

/-- C8: for every hospital rendered by the card list or the map, if the
predictions map has no entry for its id, or the entry's
`current_wait_time` is absent or equal to 0, both views display a wait of
30 minutes and classify the hospital in the medium bucket — a genuine
zero-minute wait is shown as 30, not 0. -/
theorem c8_zero_wait_displays_thirty (preds : App.PredictionsMap)
    (hid : String)
    (hyp : preds.lookup hid = none ∨
      ∃ p, preds.lookup hid = some p ∧
        (p.current_wait_time = none ∨ p.current_wait_time = some 0)) :
    PredictionCards.displayedWait (preds.lookup hid) = 30 ∧
    HospitalMap.displayedWait (preds.lookup hid) = 30 ∧
    PredictionCards.getWaitTimeClass
      (PredictionCards.displayedWait (preds.lookup hid)) = "medium" ∧
    HospitalMap.getWaitTimeClass
      (HospitalMap.displayedWait (preds.lookup hid)) = "medium" := by
  have h30 : PredictionCards.displayedWait (preds.lookup hid) = 30 ∧
      HospitalMap.displayedWait (preds.lookup hid) = 30 := by
    rcases hyp with h | ⟨p, hp, hw | hw⟩ <;>
      simp [PredictionCards.displayedWait, HospitalMap.displayedWait, jsOr,
        *]
  refine ⟨h30.1, h30.2, ?_, ?_⟩
  · rw [h30.1]; decide
  · rw [h30.2]; decide

/-- C8 witness: a concrete predictions map holding a genuine zero-minute
wait for hospital `h1` displays 30 minutes and the medium bucket in both
views, and so does a lookup for an id with no entry. -/
theorem c8_zero_wait_displays_thirty_witness :
    (PredictionCards.displayedWait
        (([("h1", ⟨some 0, none, [], none, none⟩)] :
          App.PredictionsMap).lookup "h1") = 30 ∧
      HospitalMap.displayedWait
        (([("h1", ⟨some 0, none, [], none, none⟩)] :
          App.PredictionsMap).lookup "h1") = 30) ∧
    (PredictionCards.displayedWait
        (([] : App.PredictionsMap).lookup "h9") = 30 ∧
      PredictionCards.getWaitTimeClass
        (PredictionCards.displayedWait
          (([] : App.PredictionsMap).lookup "h9")) = "medium") := by
  constructor
  · have := c8_zero_wait_displays_thirty
      [("h1", ⟨some 0, none, [], none, none⟩)] "h1"
      (Or.inr ⟨⟨some 0, none, [], none, none⟩, by decide, Or.inr rfl⟩)
    exact ⟨this.1, this.2.1⟩
  · have := c8_zero_wait_displays_thirty ([] : App.PredictionsMap) "h9"
      (Or.inl rfl)
    exact ⟨this.1, this.2.2.1⟩

namespace PredictionEngine

/-- Modelled from the spec: the backend Prediction Engine
(`prediction_engine_*.py` per the README) is not under `src/`; this
structure follows spec 4.2/3.3, the aggregated environmental context with
the factors the heuristic adjusts for (adverse weather, heavy traffic,
peak time-of-day). -/
structure EnvironmentalContext where
  adverseWeather : Bool
  heavyTraffic : Bool
  peakHours : Bool
deriving DecidableEq, Repr

/-- Modelled from the spec: the outcome of the generative-AI adapter call,
which is not under `src/` — the call may error outright, or return text
from which a numeric wait time may or may not be parseable (spec 4.3 and
design note 9: a tagged `Parsed | Unparseable` result). -/
inductive AIOutcome where
  | failure : AIOutcome
  | text : Option Nat → AIOutcome
deriving DecidableEq, Repr

/-- Modelled from the spec: the heuristic's constants are arbitrary
configurable parameters (spec design note 9), given as natural-number
minutes. -/
structure HeuristicConfig where
  baseWait : Nat
  weatherDelta : Nat
  trafficDelta : Nat
  peakDelta : Nat
deriving DecidableEq, Repr

/-- Modelled from the spec: the prediction produced by the backend engine,
restricted to the fields C4 constrains (the wait-time estimate as the
backend's JSON number, and the method tag). -/
structure EnginePrediction where
  current_wait_time : Int
  prediction_method : String
deriving DecidableEq, Repr

/-- Modelled from the spec (4.3): the parsing policy — a failed call or
text without a parseable numeric wait time yields nothing. -/
def parseWaitTime (outcome : AIOutcome) : Option Nat :=
  match outcome with
  | .failure => none
  | .text w => w

/-- Modelled from the spec (4.3): the deterministic fallback heuristic —
base wait time plus additive adjustments for adverse weather, heavy
traffic and peak hours. -/
def heuristicWait (cfg : HeuristicConfig) (ctx : EnvironmentalContext) : Nat :=
  cfg.baseWait
    + (if ctx.adverseWeather then cfg.weatherDelta else 0)
    + (if ctx.heavyTraffic then cfg.trafficDelta else 0)
    + (if ctx.peakHours then cfg.peakDelta else 0)

/-- Modelled from the spec (4.3): `predict` parses the AI response for a
wait-time number and falls back to the heuristic when parsing fails or the
call errors, tagging the method used. The hospital argument feeds only the
prompt of the AI path, which the fallback does not consult. -/
def predict (hospital : App.Hospital) (cfg : HeuristicConfig)
    (ctx : EnvironmentalContext) (ai : AIOutcome) : EnginePrediction :=
  match parseWaitTime ai with
  | some w => ⟨(w : Int), "ai"⟩
  | none => ⟨(heuristicWait cfg ctx : Int), "fallback"⟩

end PredictionEngine

/-- C4: for every hospital, environmental context and heuristic
configuration, whenever the AI call errors or its text has no parseable
wait time, `predict` still returns a prediction: its method is tagged
`fallback` and its wait time is the deterministic heuristic estimate, a
non-negative integer. -/
theorem c4_predict_falls_back (hospital : App.Hospital)
    (cfg : PredictionEngine.HeuristicConfig)
    (ctx : PredictionEngine.EnvironmentalContext)
    (ai : PredictionEngine.AIOutcome)
    (hfail : PredictionEngine.parseWaitTime ai = none) :
    (PredictionEngine.predict hospital cfg ctx ai).prediction_method =
      "fallback" ∧
    (PredictionEngine.predict hospital cfg ctx ai).current_wait_time =
      (PredictionEngine.heuristicWait cfg ctx : Int) ∧
    0 ≤ (PredictionEngine.predict hospital cfg ctx ai).current_wait_time := by
  unfold PredictionEngine.predict
  rw [hfail]
  exact ⟨rfl, rfl, Int.natCast_nonneg _⟩

/-- C4 witness: a failed AI call on a concrete hospital and a concrete
adverse context yields the fallback tag and the concrete non-negative
heuristic estimate. -/
theorem c4_predict_falls_back_witness :
    (PredictionEngine.predict
        ⟨"h1", "Old General", none, (1, 1), none, some 2⟩
        ⟨30, 15, 20, 10⟩ ⟨true, true, false⟩
        PredictionEngine.AIOutcome.failure).prediction_method =
      "fallback" ∧
    (PredictionEngine.predict
        ⟨"h1", "Old General", none, (1, 1), none, some 2⟩
        ⟨30, 15, 20, 10⟩ ⟨true, true, false⟩
        PredictionEngine.AIOutcome.failure).current_wait_time = 65 ∧
    0 ≤ (PredictionEngine.predict
        ⟨"h1", "Old General", none, (1, 1), none, some 2⟩
        ⟨30, 15, 20, 10⟩ ⟨true, true, false⟩
        PredictionEngine.AIOutcome.failure).current_wait_time := by
  have := c4_predict_falls_back
    ⟨"h1", "Old General", none, (1, 1), none, some 2⟩
    ⟨30, 15, 20, 10⟩ ⟨true, true, false⟩
    PredictionEngine.AIOutcome.failure rfl
  exact ⟨this.1, this.2.1.trans (by decide), this.2.2⟩

namespace PulseBackground

/-- The shape pool of `PulseBackground.js`:
`const shapeTypes = ['dot', 'circle', 'square'];`. -/
def shapeTypes : List String := ["dot", "circle", "square"]

/-- The rotating-eligible shapes tested by
`['diamond', 'cross', 'star'].includes(randomType)`. -/
def rotatingShapes : List String := ["diamond", "cross", "star"]

/-- A background element as pushed by the generator loop of
`PulseBackground.js`. -/
structure PulseElement where
  type : String
  id : String
  delay : ℚ
  top : ℚ
  left : ℚ
  rotating : Bool
deriving DecidableEq, Repr

/-- A grid cell: `{ cellId: i, elements: cellElements }`. -/
structure PulseCell where
  cellId : Nat
  elements : List PulseElement
deriving DecidableEq, Repr

/-- Embeds one iteration of the inner element loop. The cell's random
draws are supplied as the indexed source `draw` (each `Math.random()`
result in `[0, 1)` is an independent uniform draw, so the index layout is
immaterial to the verified properties): `randomType` is
`shapeTypes[Math.floor(Math.random() * shapeTypes.length)]` and
`isRotating` is `['diamond','cross','star'].includes(randomType) && Math.random() > 0.7`. -/
def mkElement (draw : Nat → ℚ) (i j : Nat) : PulseElement :=
  let randomType :=
    shapeTypes.getD (Int.toNat ⌊draw (2 + 5 * j) * (shapeTypes.length : ℚ)⌋)
      "dot"
  { type := randomType
    id := toString i ++ "-" ++ randomType ++ "-" ++ toString j
    delay := draw (4 + 5 * j) * 6
    top := draw (5 + 5 * j) * 80 + 10
    left := draw (6 + 5 * j) * 80 + 10
    rotating := rotatingShapes.contains randomType
      && decide (draw (3 + 5 * j) > 7 / 10) }

/-- Embeds one iteration of the outer cell loop of `PulseBackground.js`:
a cell holds elements only when `Math.random() > 0.8`, and then
`Math.floor(Math.random() * 2) + 1` of them. -/
def mkCell (draw : Nat → ℚ) (i : Nat) : PulseCell :=
  if draw 0 > 4 / 5 then
    { cellId := i
      elements :=
        (List.range (Int.toNat ⌊draw 1 * 2⌋ + 1)).map (mkElement draw i) }
  else { cellId := i, elements := [] }

/-- Embeds the whole grid: `Array.from({ length: 300 }, (_, i) => ...)`,
with `rng i` the draw source consumed by cell `i`. -/
def pulseGrid (rng : Nat → Nat → ℚ) : List PulseCell :=
  (List.range 300).map (fun i => mkCell (rng i) i)

/-- No index into the shape pool selects a rotating-eligible shape: the two
pools are disjoint and the out-of-range default is not eligible either. -/
theorem rotatingShapes_not_contains_shape (n : Nat) :
    rotatingShapes.contains (shapeTypes.getD n "dot") = false := by
  rcases n with _ | _ | _ | m
  · decide
  · decide
  · decide
  · rw [List.getD_eq_default]
    · decide
    · simp [shapeTypes]

/-- Definitional equation for the rotating field of a generated element. -/
theorem mkElement_rotating (draw : Nat → ℚ) (i j : Nat) :
    (mkElement draw i j).rotating =
      (rotatingShapes.contains
        (shapeTypes.getD
          (Int.toNat ⌊draw (2 + 5 * j) * (shapeTypes.length : ℚ)⌋) "dot")
        && decide (draw (3 + 5 * j) > 7 / 10)) :=
  rfl

end PulseBackground

/-- C10: for every outcome of the random number generator producing draws
below 1, every element of the background grid has `rotating = false` (the
shape pool `['dot','circle','square']` is disjoint from the
rotating-eligible pool `['diamond','cross','star']`), the grid has exactly
300 cells, and each cell holds at most 2 elements. -/
theorem c10_grid_shape (rng : Nat → Nat → ℚ)
    (hlt : ∀ i k, rng i k < 1) :
    (PulseBackground.pulseGrid rng).length = 300 ∧
    ∀ c ∈ PulseBackground.pulseGrid rng,
      c.elements.length ≤ 2 ∧ ∀ e ∈ c.elements, e.rotating = false := by
  constructor
  · simp [PulseBackground.pulseGrid]
  · intro c hc
    obtain ⟨i, hi, rfl⟩ := List.mem_map.mp hc
    unfold PulseBackground.mkCell
    split_ifs with hg
    · constructor
      · have hd : rng i 1 * 2 < 2 := by
          have := hlt i 1
          linarith
        have hfl : ⌊rng i 1 * 2⌋ < 2 := by
          rw [Int.floor_lt]
          push_cast
          exact hd
        simp only [List.length_map, List.length_range]
        omega
      · intro e he
        simp only [List.mem_map, List.mem_range] at he
        obtain ⟨j, hj, rfl⟩ := he
        rw [PulseBackground.mkElement_rotating,
          PulseBackground.rotatingShapes_not_contains_shape, Bool.false_and]
    · exact ⟨by simp, by simp⟩

/-- C10 witness: the grid generated from the constant draw source 9/10 has
300 cells, each with at most 2 elements, all non-rotating. -/
theorem c10_grid_shape_witness :
    (PulseBackground.pulseGrid (fun _ _ => (9 : ℚ) / 10)).length = 300 ∧
    ∀ c ∈ PulseBackground.pulseGrid (fun _ _ => (9 : ℚ) / 10),
      c.elements.length ≤ 2 ∧ ∀ e ∈ c.elements, e.rotating = false :=
  c10_grid_shape (fun _ _ => (9 : ℚ) / 10) (fun _ _ => by norm_num)
